import Mathlib

/-!
Shallow embedding of the portfolio-message parsing and reconciliation pipeline
of the tg-dash repository (src/parser.ts, src/index.ts, src/db.ts), together
with theorems settling the frozen claims about its specification.

Conventions of the embedding:
* JS strings are modelled as `List Char` (one entry per code point); where the
  source uses `String.prototype.length` (UTF-16 code units) we use `utf16Len`.
* JS numbers are modelled as `ℚ`; the only place a `NaN` can arise in the
  source (a direct `parseFloat` on an all-comma/dot capture in the PNL
  branches) is modelled by `Option ℚ` with `none` standing for `NaN`.
* `Date` values are modelled by their ISO string (for the snapshot timestamp
  field) and by their julian-day value as a rational (for the SQL
  duplicate-window computation in `snapshotExistsNearTimestamp`).
* The one exception the parser can raise (the `TypeError` from
  `extractTextAfter`, where `match[1]` is `undefined` whenever the
  `copied`/`from` alternative of the regex wins) is modelled by
  `Except Unit`; all remaining code is total.
-/

namespace TgDash

instance {ε α : Type} [DecidableEq ε] [DecidableEq α] : DecidableEq (Except ε α) :=
  fun x y =>
    match x, y with
    | Except.error a, Except.error b =>
      if h : a = b then Decidable.isTrue (by rw [h])
      else Decidable.isFalse (by intro hc; cases hc; exact h rfl)
    | Except.ok a, Except.ok b =>
      if h : a = b then Decidable.isTrue (by rw [h])
      else Decidable.isFalse (by intro hc; cases hc; exact h rfl)
    | Except.error _, Except.ok _ => Decidable.isFalse (by intro hc; cases hc)
    | Except.ok _, Except.error _ => Decidable.isFalse (by intro hc; cases hc)

/-- JS `\s` / trim whitespace for the character set appearing in bot messages. -/
def isWs (c : Char) : Bool :=
  c == ' ' || c == '\t' || c == '\n' || c == '\r' || c == '\x0b' || c == '\x0c'

/-- `startsW l p` : does `l` start with `p` (JS `String.prototype.startsWith`). -/
def startsW : List Char → List Char → Bool
  | _, [] => true
  | [], _ :: _ => false
  | c :: l, p :: ps => c == p && startsW l ps

/-- `containsW l p` : does `l` contain `p` as a contiguous substring
(JS `String.prototype.includes`). -/
def containsW : List Char → List Char → Bool
  | [], p => startsW [] p
  | c :: t, p => startsW (c :: t) p || containsW t p

/-- Lowercase a list of characters (JS `toLowerCase`; the messages only use
ASCII letters plus symbols that are fixed by lowercasing). -/
def lowerC (l : List Char) : List Char := l.map Char.toLower

/-- `startsLower l p` : does `l`, lowercased, start with `p`
(`p` is given already in lowercase). -/
def startsLower : List Char → List Char → Bool
  | _, [] => true
  | [], _ :: _ => false
  | c :: l, p :: ps => (c.toLower == p) && startsLower l ps

/-- JS `String.prototype.trim` on a character list. -/
def trimC (l : List Char) : List Char :=
  ((l.dropWhile isWs).reverse.dropWhile isWs).reverse

/-- JS `String.prototype.trim` on a string. -/
def jsTrim (s : String) : String := String.mk (trimC s.data)

/-- JS `String.prototype.length` counts UTF-16 code units: code points at or
above `0x10000` count twice. -/
def utf16Len (l : List Char) : Nat :=
  (l.map (fun c => if c.toNat ≥ 0x10000 then 2 else 1)).sum

/-- Split on `'\n'`, keeping empty segments (JS `text.split('\n')`). -/
def splitNlAux : List Char → List Char → List (List Char)
  | [], acc => [acc.reverse]
  | '\n' :: t, acc => acc.reverse :: splitNlAux t []
  | c :: t, acc => splitNlAux t (c :: acc)

/-- JS `text.split('\n')`. -/
def splitNl (l : List Char) : List (List Char) := splitNlAux l []

/-- The trimmed, non-empty lines of a message
(`text.split('\n').map(l => l.trim()).filter(l => l.length > 0)`). -/
def mkLines (text : List Char) : List (List Char) :=
  ((splitNl text).map trimC).filter (fun l => !l.isEmpty)

/-- Digit-or-comma, the `[\d,]` character class of `extractNumber`. -/
def isDC (c : Char) : Bool := c.isDigit || c == ','

/-- Value of a digit string (JS `parseInt(s, 10)` on an all-digit string). -/
def natOfDigits (l : List Char) : Nat :=
  l.foldl (fun a c => a * 10 + (c.toNat - '0'.toNat)) 0

/-- Exact value of `intPart . fracPart` as a rational. -/
def decVal (intPart fracPart : List Char) : ℚ :=
  (natOfDigits intPart : ℚ) + (natOfDigits fracPart : ℚ) / (10 : ℚ) ^ fracPart.length

/-- JS `parseFloat` on strings of the shape `[+-]? digits* ('.' digits*)?`
(the only shape reaching it in the parser, after commas are stripped).
`none` models the `NaN` result (no digits at all). -/
def jsParseFloat (l : List Char) : Option ℚ :=
  let sr : ℚ × List Char :=
    match l with
    | '+' :: t => (1, t)
    | '-' :: t => (-1, t)
    | _ => (1, l)
  let ip := sr.2.takeWhile Char.isDigit
  let r2 := sr.2.dropWhile Char.isDigit
  let fp : List Char :=
    match r2 with
    | '.' :: t => t.takeWhile Char.isDigit
    | _ => []
  if ip.isEmpty && fp.isEmpty then none else some (sr.1 * decVal ip fp)

/-- The maximal `[\d,]+\.?\d*` token starting at the head of `l`
(assuming the head is a digit or comma). -/
def numTokenFrom (l : List Char) : List Char :=
  let b := l.takeWhile isDC
  match l.dropWhile isDC with
  | '.' :: t => b ++ '.' :: t.takeWhile Char.isDigit
  | _ => b

/-- Attempt of the `([+-]?[\d,]+\.?\d*)` pattern anchored at the head of `l`:
an optional sign must be followed directly by a digit or comma. -/
def numMatchAt (l : List Char) : Option (List Char) :=
  match l with
  | [] => none
  | c :: t =>
    if c == '+' || c == '-' then
      match t with
      | d :: _ => if isDC d then some (c :: numTokenFrom t) else none
      | [] => none
    else if isDC c then some (numTokenFrom l)
    else none

/-- Leftmost match of `([+-]?[\d,]+\.?\d*)` in `l` (the regex of
`extractNumber`). -/
def findNumToken : List Char → Option (List Char)
  | [] => none
  | c :: t =>
    match numMatchAt (c :: t) with
    | some m => some m
    | none => findNumToken t

/-- `replace(/,/g, '')`. -/
def stripCommas (l : List Char) : List Char := l.filter (fun c => c != ',')

/-- `extractNumber` of src/parser.ts: leftmost signed number token, commas
stripped, `parseFloat`, and `|| null` (so both `NaN` and `0` become `null`). -/
def extractNumber (l : List Char) : Option ℚ :=
  match findNumToken l with
  | none => none
  | some tok =>
    match jsParseFloat (stripCommas tok) with
    | none => none
    | some q => if q = 0 then none else some q

/-- `parseFloat(g.replace(/,/g, '') || '0')` applied to a regex capture `g` of
shape `[+-]?[\d,]+\.?\d*`: empty after comma-stripping falls back to `'0'`;
`none` models a `NaN` result (e.g. capture `"-,."` cleans to `"-."`). -/
def pnlNum (g : List Char) : Option ℚ :=
  let s := stripCommas g
  jsParseFloat (if s.isEmpty then ['0'] else s)

/-- The `[\d,]+\.?\d*` group anchored at the head of `l`; on success returns
the capture and the rest of the input. -/
def numGroupFrom (l : List Char) : Option (List Char × List Char) :=
  match l with
  | [] => none
  | c :: _ =>
    if isDC c then
      let tok := numTokenFrom l
      some (tok, l.drop tok.length)
    else none

/-- The `([+-]?)` group: the sign factor and the rest of the input. -/
def signOpt (l : List Char) : ℚ × List Char :=
  match l with
  | '+' :: t => (1, t)
  | '-' :: t => (-1, t)
  | _ => (1, l)

/-- The `[+-]?[\d,]+\.?\d*` group (sign kept inside the capture), anchored at
the head of `l`. -/
def signedGroupFrom (l : List Char) : Option (List Char × List Char) :=
  match l with
  | '+' :: t => (numGroupFrom t).map (fun g => ('+' :: g.1, g.2))
  | '-' :: t => (numGroupFrom t).map (fun g => ('-' :: g.1, g.2))
  | _ => numGroupFrom l

/-- Attempt, anchored at the head of `l`, of the summary-PNL regex
`([+-]?)\$?([\d,]+\.?\d*)\s*\(([+-]?)([\d,]+\.?\d*)%\)`; on success returns
the signed USD and percent values (`none` inside a component models `NaN`). -/
def pnlSummaryAt (l : List Char) : Option (Option ℚ × Option ℚ) :=
  let s1 := signOpt l
  let r2 := match s1.2 with | '$' :: t => t | _ => s1.2
  match numGroupFrom r2 with
  | none => none
  | some (g2, r3) =>
    match r3.dropWhile isWs with
    | '(' :: r5 =>
      let s3 := signOpt r5
      match numGroupFrom s3.2 with
      | none => none
      | some (g4, r7) =>
        match r7 with
        | '%' :: ')' :: _ =>
          some ((pnlNum g2).map (s1.1 * ·), (pnlNum g4).map (s3.1 * ·))
        | _ => none
    | _ => none

/-- Leftmost match of the summary-PNL regex in `l`. -/
def findPnlSummary : List Char → Option (Option ℚ × Option ℚ)
  | [] => none
  | c :: t =>
    match pnlSummaryAt (c :: t) with
    | some r => some r
    | none => findPnlSummary t

/-- Attempt, anchored at the head of `l`, of the position-PNL regex
`([+-]?[\d,]+\.?\d*)\s*\$?\s*\(([+-]?[\d,]+\.?\d*)%\)`. -/
def pnlPositionAt (l : List Char) : Option (Option ℚ × Option ℚ) :=
  match signedGroupFrom l with
  | none => none
  | some (g1, r1) =>
    let r2 := r1.dropWhile isWs
    let r3 := match r2 with | '$' :: t => t | _ => r2
    match r3.dropWhile isWs with
    | '(' :: r5 =>
      match signedGroupFrom r5 with
      | none => none
      | some (g2, r6) =>
        match r6 with
        | '%' :: ')' :: _ => some (pnlNum g1, pnlNum g2)
        | _ => none
    | _ => none

/-- Leftmost match of the position-PNL regex in `l`. -/
def findPnlPosition : List Char → Option (Option ℚ × Option ℚ)
  | [] => none
  | c :: t =>
    match pnlPositionAt (c :: t) with
    | some r => some r
    | none => findPnlPosition t

/-- Attempt of `\d{4}-\d{2}-\d{2}` anchored at the head of the list. -/
def isoAt : List Char → Option (List Char)
  | a :: b :: c :: d :: '-' :: e :: f :: '-' :: g :: h :: _ =>
    if [a, b, c, d, e, f, g, h].all Char.isDigit then
      some [a, b, c, d, '-', e, f, '-', g, h]
    else none
  | _ => none

/-- Leftmost match of `\d{4}-\d{2}-\d{2}`. -/
def findIso : List Char → Option (List Char)
  | [] => none
  | c :: t =>
    match isoAt (c :: t) with
    | some m => some m
    | none => findIso t

/-- The `\d{1,2}` group (greedy, with the only viable backtracking resolved:
a second digit is taken exactly when present). -/
def d12 : List Char → Option (List Char × List Char)
  | [] => none
  | [a] => if a.isDigit then some ([a], []) else none
  | a :: b :: t =>
    if a.isDigit then
      if b.isDigit then some ([a, b], t) else some ([a], b :: t)
    else none

/-- Attempt of `\d{1,2}\/\d{1,2}\/\d{4}` anchored at the head of the list. -/
def slashAt (l : List Char) : Option (List Char) :=
  match d12 l with
  | none => none
  | some (d1, r1) =>
    match r1 with
    | '/' :: r2 =>
      match d12 r2 with
      | none => none
      | some (d2, r3) =>
        match r3 with
        | '/' :: a :: b :: c :: d :: _ =>
          if [a, b, c, d].all Char.isDigit then
            some (d1 ++ '/' :: d2 ++ '/' :: [a, b, c, d])
          else none
        | _ => none
    | _ => none

/-- Leftmost match of `\d{1,2}\/\d{1,2}\/\d{4}`. -/
def findSlash : List Char → Option (List Char)
  | [] => none
  | c :: t =>
    match slashAt (c :: t) with
    | some m => some m
    | none => findSlash t

/-- `extractDate` of src/parser.ts: prefer the ISO pattern; otherwise the
combined slash/ISO regex, which (given no ISO match exists) reduces to the
slash-date search. -/
def extractDate (l : List Char) : Option String :=
  match findIso l with
  | some m => some (String.mk m)
  | none => (findSlash l).map String.mk

/-!
`extractTextAfter(line, /copied|from|copy trade by/i)`.

The source concatenates the pattern source with `'\s*:?\s*(.+)'`, yielding the
regex `copied|from|copy trade by\s*:?\s*(.+)` (flag `i`): by alternation
precedence, the capture group belongs only to the third alternative.  When the
leftmost match is produced by the `copied` or `from` alternative, `match[1]`
is `undefined` and `match[1].trim()` raises a `TypeError`, modelled here as
`Except.error ()`.
-/

/-- Group 1 of `\s*:?\s*(.+)` matched against the whole remainder `r` of a
line (greedy, with JS backtracking resolved: when everything after the
optional colon is whitespace the group degenerates to a single whitespace
character, and a trailing bare colon is captured as `":"`). `none` means the
alternative fails (`r` empty). -/
def alt3Group (r : List Char) : Option (List Char) :=
  match r with
  | [] => none
  | _ :: _ =>
    match r.dropWhile isWs with
    | [] => some [(r.getLast?).getD ' ']
    | ':' :: r2 =>
      match r2.dropWhile isWs with
      | [] =>
        match r2 with
        | [] => some [':']
        | _ :: _ => some [(r2.getLast?).getD ' ']
      | w2 => some w2
    | w1 => some w1

/-- Scan for the leftmost match of `copied|from|copy trade by\s*:?\s*(.+)`
(case-insensitive). `error ()` is the `TypeError` from `match[1].trim()` when
the `copied` or `from` alternative wins; `ok (some g)` is the raw capture of
the third alternative; `ok none` means no match. -/
def kwScan : List Char → Except Unit (Option (List Char))
  | [] => Except.ok none
  | l@(_ :: t) =>
    if startsLower l "copied".toList then Except.error ()
    else if startsLower l "from".toList then Except.error ()
    else if startsLower l "copy trade by".toList then
      match alt3Group (l.drop 13) with
      | some g => Except.ok (some g)
      | none => kwScan t
    else kwScan t

/-- `extractTextAfter(line, /copied|from|copy trade by/i) || null` as used for
the `copied_from` field: the capture is trimmed and an empty result becomes
`null`. -/
def copiedFromResult (l : List Char) : Except Unit (Option String) :=
  match kwScan l with
  | Except.error e => Except.error e
  | Except.ok none => Except.ok none
  | Except.ok (some g) =>
    let s := trimC g
    Except.ok (if s.isEmpty then none else some (String.mk s))

/-! ## Data model (src/types.ts) -/

/-- `PortfolioSnapshot` of src/types.ts. Amount fields are rationals;
the two PNL fields use `none` for the JS `NaN`. -/
structure PortfolioSnapshot where
  total_balance : ℚ := 0
  available_balance : ℚ := 0
  invested : ℚ := 0
  value : ℚ := 0
  total_pnl_usd : Option ℚ := some 0
  total_pnl_pct : Option ℚ := some 0
  timestamp : String := ""
  total_positions : Nat := 0
  deriving Repr, DecidableEq

/-- `Position` of src/types.ts. -/
structure Position where
  market_question : String := ""
  side : String := "Yes"
  entry_price : ℚ := 0
  invested : ℚ := 0
  shares : ℚ := 0
  value : ℚ := 0
  pnl_usd : Option ℚ := some 0
  pnl_pct : Option ℚ := some 0
  expiry_timestamp : Option String := none
  copied_from : Option String := none
  deriving Repr, DecidableEq

/-- `ParsedPortfolio` of src/types.ts. -/
structure ParsedPortfolio where
  snapshot : PortfolioSnapshot
  positions : List Position
  deriving Repr, DecidableEq

/-! ## Parser (src/parser.ts) -/

/-- The numbered-position-header heuristic:
`line.match(/^#?\d+\./)` — an optional `#`, one or more digits, then a dot.
`digitsDotAux` consumes the digit run and requires the following dot. -/
def digitsDotAux : List Char → Bool
  | [] => false
  | c :: t => c == '.' || (c.isDigit && digitsDotAux t)

/-- One or more digits followed by a dot, anchored at the head. -/
def digitsDot : List Char → Bool
  | [] => false
  | c :: t => c.isDigit && digitsDotAux t

/-- Truthiness of `line.match(/^#?\d+\./)`. -/
def numDotTest (l : List Char) : Bool :=
  match l with
  | '#' :: t => digitsDot t
  | _ => digitsDot l

/-- Truthiness of `line.match(/^#\s*\d+$/)` (bare pagination buttons). -/
def pagTest (l : List Char) : Bool :=
  match l with
  | '#' :: t =>
    let r := t.dropWhile isWs
    !r.isEmpty && r.all Char.isDigit
  | _ => false

/-- Truthiness of `line.match(/^•\s*(Invested|invested)/)`. -/
def bulletInvTest (l : List Char) : Bool :=
  match l with
  | '•' :: t =>
    let r := t.dropWhile isWs
    startsW r "Invested".toList || startsW r "invested".toList
  | _ => false

/-- Attempt of `Positions\s*\((\d+)\)` (case-insensitive) anchored at the head
of the list; returns the captured count. -/
def posHeaderAt (l : List Char) : Option Nat :=
  if startsLower l "positions".toList then
    match (l.drop 9).dropWhile isWs with
    | '(' :: r2 =>
      let ds := r2.takeWhile Char.isDigit
      if ds.isEmpty then none
      else
        match r2.dropWhile Char.isDigit with
        | ')' :: _ => some (natOfDigits ds)
        | _ => none
    | _ => none
  else none

/-- Leftmost match of `Positions\s*\((\d+)\)` in the whole message
(the `total_positions` header extraction). -/
def findPosHeader : List Char → Option Nat
  | [] => none
  | c :: t =>
    match posHeaderAt (c :: t) with
    | some n => some n
    | none => findPosHeader t

/-- A line at which pass 1 stops and pass 2 enters the positions section:
`line.match(/^#?\d+\./) && line.includes('?')`. -/
def posHeaderLine (l : List Char) : Bool :=
  numDotTest l && containsW l ['?']

/-- One step of pass 1: the mutually exclusive keyword branches updating the
summary fields of the snapshot (src/parser.ts lines 41-77). -/
def applySummaryLine (line : List Char) (s : PortfolioSnapshot) : PortfolioSnapshot :=
  let lower := lowerC line
  if containsW lower "total balance".toList then
    match extractNumber line with
    | some b => if 0 ≤ b then { s with total_balance := b } else s
    | none => s
  else if containsW lower "available balance".toList ||
      (containsW lower "available".toList && containsW lower "balance".toList) then
    match extractNumber line with
    | some b => if 0 ≤ b then { s with available_balance := b } else s
    | none => s
  else if containsW lower "invested".toList && !containsW lower "shares".toList &&
      !numDotTest line && !startsW line ['•'] && !pagTest line then
    match extractNumber line with
    | some b => if 0 ≤ b then { s with invested := b } else s
    | none => s
  else if containsW lower "value".toList && !containsW lower "pnl".toList &&
      !numDotTest line && !startsW line ['•'] && !pagTest line then
    match extractNumber line with
    | some b => if 0 ≤ b then { s with value := b } else s
    | none => s
  else if (containsW lower "total pnl".toList || containsW lower "total profit".toList) &&
      !numDotTest line && !pagTest line then
    match findPnlSummary line with
    | some r => { s with total_pnl_usd := r.1, total_pnl_pct := r.2 }
    | none =>
      match extractNumber line with
      | some p => { s with total_pnl_usd := some p }
      | none => s
  else s

/-- Pass 1 over the lines: update summary fields, stopping at the first
numbered-position header. -/
def pass1 : List (List Char) → PortfolioSnapshot → PortfolioSnapshot
  | [], s => s
  | line :: rest, s =>
    if posHeaderLine line then s
    else pass1 rest (applySummaryLine line s)

/-- The pagination/bottom-control condition that terminates pass 2
(src/parser.ts lines 86-97). -/
def breakCond (line : List Char) : Bool :=
  let lower := lowerC line
  containsW lower "← back".toList || containsW lower "refresh".toList ||
  containsW lower "last page".toList || containsW lower "next".toList ||
  containsW lower "auto redeem".toList ||
  (containsW lower "sell".toList && !containsW lower "shares".toList) ||
  containsW lower "limit".toList || pagTest line

/-- The non-market noise rows skipped inside the positions section
(src/parser.ts lines 106-121). -/
def noiseSkip (line : List Char) : Bool :=
  let lower := lowerC line
  containsW lower "total balance".toList || containsW lower "view profile".toList ||
  containsW lower "polygonscan".toList ||
  startsW lower "• invested:".toList ||
  (startsW lower "invested:".toList && !containsW line ['?']) ||
  containsW lower "polymarket may have".toList ||
  containsW lower "delayed price data".toList ||
  containsW lower "manual trades".toList || containsW lower "copy trades".toList ||
  bulletInvTest line || (trimC line).isEmpty ||
  (utf16Len line < 10 && !containsW line ['?'] && !numDotTest line)

/-- A line opening a new position:
`isNumberedMarket || isMarketQuestion` (src/parser.ts lines 124-127). -/
def newPosCond (line : List Char) : Bool :=
  (numDotTest line && (containsW line ['?'] || utf16Len line > 20)) ||
  (containsW line ['?'] && utf16Len line > 15 && numDotTest line)

/-- `line.replace(/^#?\d+\.\s*/, '')`. -/
def stripNumPrefix (l : List Char) : List Char :=
  let core : List Char → Option (List Char) := fun m =>
    let ds := m.takeWhile Char.isDigit
    if ds.isEmpty then none
    else
      match m.dropWhile Char.isDigit with
      | '.' :: r2 => some (r2.dropWhile isWs)
      | _ => none
  match l with
  | '#' :: t =>
    match core t with
    | some r => r
    | none => l
  | _ =>
    match core l with
    | some r => r
    | none => l

/-- `marketText.replace(/^[✓✔✅]\s*/, '')`. -/
def stripCheckmark (l : List Char) : List Char :=
  match l with
  | c :: t => if c == '✓' || c == '✔' || c == '✅' then t.dropWhile isWs else l
  | [] => l

/-- The cleaned market question of a position-header line. -/
def marketQuestionOf (line : List Char) : String :=
  String.mk (trimC (stripCheckmark (trimC (stripNumPrefix line))))

/-- The fresh position created at a header line, with the side flipped to
`"No"` when the lowercased line contains `no` or `short`. -/
def newPosition (line : List Char) : Position :=
  let lower := lowerC line
  { market_question := marketQuestionOf line
    side := if containsW lower "no".toList || containsW lower "short".toList
            then "No" else "Yes" }

/-- The detail-line keyword routing for an open position
(src/parser.ts lines 156-184). The only fallible branch is the
`copied`/`from`/`copy trade by` one. -/
def applyDetailLine (line : List Char) (p : Position) : Except Unit Position :=
  let lower := lowerC line
  if containsW lower "side:".toList || containsW lower "position:".toList then
    Except.ok { p with side :=
      (if containsW lower "no".toList || containsW lower "short".toList
       then "No" else "Yes") }
  else if containsW lower "entry".toList then
    Except.ok { p with entry_price := (extractNumber line).getD 0 }
  else if containsW lower "invested".toList && !containsW lower "shares".toList then
    Except.ok { p with invested := (extractNumber line).getD 0 }
  else if containsW lower "shares".toList then
    Except.ok { p with shares := (extractNumber line).getD 0 }
  else if containsW lower "value".toList && !containsW lower "pnl".toList then
    Except.ok { p with value := (extractNumber line).getD 0 }
  else if containsW lower "pnl".toList || containsW lower "profit".toList then
    match findPnlPosition line with
    | some r => Except.ok { p with pnl_usd := r.1, pnl_pct := r.2 }
    | none => Except.ok { p with pnl_usd := some ((extractNumber line).getD 0) }
  else if containsW lower "expiry".toList || containsW lower "expires".toList then
    Except.ok { p with expiry_timestamp := extractDate line }
  else if containsW lower "copied".toList || containsW lower "from".toList ||
      containsW lower "copy trade by".toList then
    match copiedFromResult line with
    | Except.error e => Except.error e
    | Except.ok r => Except.ok { p with copied_from := r }
  else Except.ok p

/-- The mutable state of pass 2. -/
structure Pass2State where
  positions : List Position := []
  current : Option Position := none
  inPositionsSection : Bool := false
  deriving Repr, DecidableEq

/-- Push the accumulated position if it has a non-empty market question
(JS truthiness of `currentPosition.market_question`). -/
def pushCurrent (positions : List Position) (current : Option Position) : List Position :=
  match current with
  | some p => if p.market_question ≠ "" then positions ++ [p] else positions
  | none => positions

/-- Pass 2 over the lines (src/parser.ts lines 81-186). Per line: first the
break-on-controls check (only once inside the positions section), then the
header detection that enters the section, then noise skipping, opening a new
position, or detail routing. -/
def pass2 : List (List Char) → Pass2State → Except Unit Pass2State
  | [], st => Except.ok st
  | line :: rest, st =>
    if st.inPositionsSection && breakCond line then Except.ok st
    else
      let inPos := st.inPositionsSection || posHeaderLine line
      if inPos then
        if noiseSkip line then
          pass2 rest { st with inPositionsSection := inPos }
        else if newPosCond line then
          pass2 rest
            { positions := pushCurrent st.positions st.current
              current := some (newPosition line)
              inPositionsSection := inPos }
        else
          match st.current with
          | some p =>
            match applyDetailLine line p with
            | Except.error e => Except.error e
            | Except.ok p2 =>
              pass2 rest { st with current := some p2, inPositionsSection := inPos }
          | none => pass2 rest { st with inPositionsSection := inPos }
      else pass2 rest st

/-- The final "save last position" step after the pass-2 loop. -/
def finalizePositions (st : Pass2State) : List Position :=
  pushCurrent st.positions st.current

/-- `parsePortfolioResponse(text, timestamp?)` of src/parser.ts.

The wall clock is made explicit: `now` is the ISO string
`new Date().toISOString()` would produce at the call, used only when
`timestamp` is absent. The result is `Except.error ()` exactly when the
`TypeError` inside `extractTextAfter` fires. -/
def parsePortfolioResponse (text : String) (timestamp : Option String)
    (now : String) : Except Unit ParsedPortfolio :=
  let chars := text.toList
  let lines := mkLines chars
  let s0 : PortfolioSnapshot :=
    { timestamp := timestamp.getD now
      total_positions := (findPosHeader chars).getD 0 }
  let s1 := pass1 lines s0
  match pass2 lines {} with
  | Except.error e => Except.error e
  | Except.ok st => Except.ok { snapshot := s1, positions := finalizePositions st }

/-! ## Reconciliation engine (src/index.ts) -/

/-- `CopyTradingEvent` as constructed by `detectCopyTradingChanges`. -/
structure CopyTradingEvent where
  timestamp : String
  event_type : String
  description : String
  trader_name : Option String
  deriving Repr, DecidableEq

/-- Insertion into a JS `Set` (insertion-ordered, duplicates ignored). -/
def insertUnique (l : List String) (x : String) : List String :=
  if l.contains x then l else l ++ [x]

/-- The distinct trimmed non-empty `copied_from` values of the positions, in
first-occurrence order (the `currentTraders` set of src/index.ts lines 49-54). -/
def currentTradersOf (positions : List Position) : List String :=
  positions.foldl
    (fun acc p =>
      match p.copied_from with
      | some s =>
        if s ≠ "" then
          (if jsTrim s ≠ "" then insertUnique acc (jsTrim s) else acc)
        else acc
      | none => acc)
    []

/-- The `copier_added` event emitted for a new trader. -/
def mkAddEvent (ts trader : String) : CopyTradingEvent :=
  { timestamp := ts
    event_type := "copier_added"
    description := "Started copying " ++ trader
    trader_name := some trader }

/-- The `copier_removed` event emitted for a dropped trader. -/
def mkRemoveEvent (ts trader : String) : CopyTradingEvent :=
  { timestamp := ts
    event_type := "copier_removed"
    description := "Stopped copying " ++ trader
    trader_name := some trader }

/-- Result of one reconciliation pass: the events whose
`saveCopyTradingEvent` completed, the new `lastKnownTraders`, and whether the
surrounding `catch` block ran. -/
structure DetectResult where
  emitted : List CopyTradingEvent
  lastKnown : List String
  errorCaught : Bool
  deriving Repr, DecidableEq

/-- Sequential `await saveCopyTradingEvent(...)` over the planned events:
`saveOk` says whether an individual insert succeeds. The first failure throws,
so later events are not attempted; the result is the successfully saved prefix
and whether a failure occurred. -/
def saveEventsLoop (saveOk : CopyTradingEvent → Bool) :
    List CopyTradingEvent → List CopyTradingEvent × Bool
  | [] => ([], false)
  | e :: rest =>
    if saveOk e then
      let r := saveEventsLoop saveOk rest
      (e :: r.1, r.2)
    else ([], true)

/-- `detectCopyTradingChanges(snapshotId, positions)` of src/index.ts
(lines 46-91). Storage is abstracted: `latestSnapshot` is the result of
`getLatestSnapshot()` and `saveOk` the success of each event insert. The
whole body runs inside a `try`/`catch` that only logs, so a failed event save
aborts the rest of the pass (including the `lastKnownTraders` update) but is
not propagated. -/
def detectCopyTradingChanges (saveOk : CopyTradingEvent → Bool)
    (latestSnapshot : Option PortfolioSnapshot)
    (lastKnown : List String) (positions : List Position) : DetectResult :=
  let current := currentTradersOf positions
  if lastKnown.isEmpty then
    { emitted := [], lastKnown := current, errorCaught := false }
  else
    match latestSnapshot with
    | none => { emitted := [], lastKnown := current, errorCaught := false }
    | some snap =>
      let added := current.filter (fun t => !lastKnown.contains t)
      let removed := lastKnown.filter (fun t => !current.contains t)
      let events :=
        added.map (mkAddEvent snap.timestamp) ++
        removed.map (mkRemoveEvent snap.timestamp)
      let r := saveEventsLoop saveOk events
      if r.2 then { emitted := r.1, lastKnown := lastKnown, errorCaught := true }
      else { emitted := r.1, lastKnown := current, errorCaught := false }

/-- The planned event list of a pass (adds before removes, insertion order). -/
def plannedEvents (ts : String) (lastKnown current : List String) :
    List CopyTradingEvent :=
  (current.filter (fun t => !lastKnown.contains t)).map (mkAddEvent ts) ++
  (lastKnown.filter (fun t => !current.contains t)).map (mkRemoveEvent ts)

/-- The `/api/refresh` orchestration after parsing: `savePortfolio` first
(its failure propagates to the route handler unchanged and detection never
runs), then `detectCopyTradingChanges` (which never throws). -/
def refreshFlow (saveSnapshot : Except String Nat)
    (saveOk : CopyTradingEvent → Bool) (latestSnapshot : Option PortfolioSnapshot)
    (lastKnown : List String) (positions : List Position) :
    Except String (Nat × DetectResult) :=
  match saveSnapshot with
  | Except.error e => Except.error e
  | Except.ok id =>
    Except.ok (id, detectCopyTradingChanges saveOk latestSnapshot lastKnown positions)

/-! ## Duplicate suppression during backfill (src/db.ts, src/index.ts) -/

/-- `snapshotExistsNearTimestamp(timestamp, toleranceMinutes)` of src/db.ts:
`ABS(julianday(stored) - julianday(candidate)) * 24 * 60 < tolerance` for some
stored snapshot. Timestamps are julian-day rationals. -/
def snapshotExistsNearTimestamp (store : List ℚ) (jd : ℚ) (tol : ℚ) : Bool :=
  store.any (fun s => |s - jd| * 24 * 60 < tol)

/-- One historical message: its text, its date as an ISO string (used as the
snapshot timestamp) and as a julian-day value (used by the SQL window). -/
structure BackfillMessage where
  text : String
  iso : String
  jd : ℚ

/-- Counters and persisted-snapshot timestamps during backfill. -/
structure BackfillState where
  store : List ℚ
  saved : Nat
  skipped : Nat
  errorCount : Nat
  deriving Repr, DecidableEq

/-- The "only save if we got valid data" condition of the backfill loop:
`parsed.snapshot.total_balance > 0 || parsed.positions.length > 0 ||
parsed.snapshot.total_positions`. -/
def nontrivialParse (p : ParsedPortfolio) : Bool :=
  decide (0 < p.snapshot.total_balance) || !p.positions.isEmpty ||
  p.snapshot.total_positions ≠ 0

/-- Whether a message parses without the `TypeError` and yields non-trivial
data. -/
def backfillNontrivial (now : String) (msg : BackfillMessage) : Bool :=
  match parsePortfolioResponse msg.text (some msg.iso) now with
  | Except.ok p => nontrivialParse p
  | Except.error _ => false

/-- One iteration of the `/api/historical/fetch` loop of src/index.ts
(lines 247-273): skip candidates whose timestamp is within 5 minutes of a
persisted snapshot; otherwise parse (a thrown error is counted), persist only
non-trivial parses, and count trivial ones as skipped. -/
def processMessage (now : String) (st : BackfillState) (msg : BackfillMessage) :
    BackfillState :=
  if snapshotExistsNearTimestamp st.store msg.jd 5 then
    { st with skipped := st.skipped + 1 }
  else
    match parsePortfolioResponse msg.text (some msg.iso) now with
    | Except.error _ => { st with errorCount := st.errorCount + 1 }
    | Except.ok p =>
      if nontrivialParse p then
        { st with store := st.store ++ [msg.jd], saved := st.saved + 1 }
      else { st with skipped := st.skipped + 1 }

/-! ## Shared helpers for the theorems -/

/-- A position copied from trader `t`, as used in the reconciliation claims. -/
def traderPosition (t : String) : Position :=
  { market_question := "Q?", copied_from := some t }

/-- `saveEventsLoop` saves exactly the prefix of events accepted by the save
oracle, and reports a failure exactly when some event is rejected. -/
theorem saveEventsLoop_eq (f : CopyTradingEvent → Bool) :
    ∀ evs : List CopyTradingEvent,
      saveEventsLoop f evs = (evs.takeWhile f, !evs.all f)
  | [] => rfl
  | e :: rest => by
    unfold saveEventsLoop
    cases hf : f e with
    | true => simp [hf, saveEventsLoop_eq f rest, List.takeWhile_cons, List.all_cons]
    | false => simp [hf, List.takeWhile_cons, List.all_cons]

/-- `takeWhile` is the identity on a list all of whose elements satisfy the
predicate. -/
theorem takeWhile_of_all {α : Type} (p : α → Bool) :
    ∀ l : List α, l.all p = true → l.takeWhile p = l
  | [], _ => rfl
  | a :: t, h => by
    rw [List.all_cons, Bool.and_eq_true] at h
    simp [List.takeWhile_cons, h.1, takeWhile_of_all p t h.2]

/-! ## Claims -/

/-- C1: refuted as stated — the parser is not total. On the two-line text
`"#1. Will X happen?\nCopied from: trader_a"` the detail line is routed to
`extractTextAfter`, whose regex `copied|from|copy trade by\s*:?\s*(.+)`
matches via the `copied` alternative, leaving the capture group undefined, so
`match[1].trim()` raises a `TypeError` (modelled by `Except.error ()`)
instead of returning a degraded `{snapshot, positions}` value. -/
theorem parser_raises_on_copied_from_line :
    parsePortfolioResponse "#1. Will X happen?\nCopied from: trader_a"
      (some "2024-01-01T00:00:00.000Z") "2024-01-01T00:00:00.000Z" =
      Except.error () := by
  decide

/-- C2: refuted as stated — parsing the exact thirteen-line round-trip
message of the spec does not yield the stated snapshot and position: the last
line `"Copied from: trader_a"` raises the `extractTextAfter` `TypeError`
(`Except.error ()`), so the call returns nothing at all. -/
theorem roundtrip_message_raises :
    parsePortfolioResponse
      "Total Balance: $90.20\nAvailable Balance: $12.50\nInvested: $77.70\nValue: $80.00\nTotal PNL: -$15.19 (-0.02%)\n#1. Will X happen?\nSide: Yes\nEntry: 0.45\nInvested: $50.00\nShares: 111\nValue: $55.00\nPNL: $5.00 (10.00%)\nCopied from: trader_a"
      (some "2024-01-01T00:00:00.000Z") "2024-01-01T00:00:00.000Z" =
      Except.error () := by
  decide

/-- C3: with an empty `lastKnownTraders` at detection time, a reconciliation
pass emits no events whatever the positions, the save oracle and the latest
snapshot are, and `lastKnownTraders` becomes the snapshot's trader set; in
particular, for a single position copied from `"alice"` it becomes
`["alice"]`. -/
theorem detect_empty_baseline :
    (∀ (saveOk : CopyTradingEvent → Bool) (latest : Option PortfolioSnapshot)
        (positions : List Position),
      detectCopyTradingChanges saveOk latest [] positions =
        { emitted := [], lastKnown := currentTradersOf positions,
          errorCaught := false }) ∧
    detectCopyTradingChanges (fun _ => true) none [] [traderPosition "alice"] =
      { emitted := [], lastKnown := ["alice"], errorCaught := false } := by
  refine ⟨fun saveOk latest positions => rfl, ?_⟩
  decide

/-- C4: after a pass established `lastKnownTraders = ["alice", "bob"]`, a
pass over a snapshot with traders `["bob", "carol"]` emits exactly one
`copier_added` event for `"carol"` and one `copier_removed` event for
`"alice"` (and nothing for `"bob"`), each carrying the snapshot's timestamp,
the trader name, and the `Started copying`/`Stopped copying` description;
`lastKnownTraders` becomes `["bob", "carol"]`. -/
theorem detect_two_pass_membership_change :
    (detectCopyTradingChanges (fun _ => true) (some { timestamp := "TS2" })
        (detectCopyTradingChanges (fun _ => true) (some { timestamp := "TS1" })
          [] [traderPosition "alice", traderPosition "bob"]).lastKnown
        [traderPosition "bob", traderPosition "carol"]).emitted =
      [{ timestamp := "TS2", event_type := "copier_added",
         description := "Started copying carol", trader_name := some "carol" },
       { timestamp := "TS2", event_type := "copier_removed",
         description := "Stopped copying alice", trader_name := some "alice" }] ∧
    (detectCopyTradingChanges (fun _ => true) (some { timestamp := "TS2" })
        (detectCopyTradingChanges (fun _ => true) (some { timestamp := "TS1" })
          [] [traderPosition "alice", traderPosition "bob"]).lastKnown
        [traderPosition "bob", traderPosition "carol"]).lastKnown =
      ["bob", "carol"] := by
  constructor
  · decide
  · decide

/-- C9: with an explicit timestamp the parse does not depend on the wall
clock, so two calls on the same text and timestamp yield structurally equal
results (including the degenerate case where both raise). -/
theorem parse_deterministic_with_explicit_timestamp :
    ∀ (text ts now1 now2 : String),
      parsePortfolioResponse text (some ts) now1 =
        parsePortfolioResponse text (some ts) now2 :=
  fun _ _ _ _ => rfl

/-- C5 counterexample: a backfill candidate 10 minutes away from the only
persisted snapshot is not within the 5-minute window, yet it is *not*
persisted — its parse is trivial (zero balance, no positions, no reported
count), so it is counted as skipped and the store is unchanged, refuting
"otherwise the candidate is persisted". -/
theorem backfill_far_trivial_candidate_skipped :
    snapshotExistsNearTimestamp [0] (10 / 1440) 5 = false ∧
    processMessage "N" { store := [0], saved := 0, skipped := 0, errorCount := 0 }
        { text := "Total Balance: $0.00", iso := "I", jd := 10 / 1440 } =
      { store := [0], saved := 0, skipped := 1, errorCount := 0 } := by
  constructor
  · with_unfolding_all decide
  · with_unfolding_all decide

/-- C5 amended: a candidate within the 5-minute window of a persisted
snapshot is discarded and counted as skipped; a candidate outside the window
is persisted provided its parse completes and yields non-trivial data
(positive total balance, at least one position, or a nonzero reported
positions count). -/
theorem backfill_dedup_characterization :
    ∀ (now : String) (st : BackfillState) (msg : BackfillMessage),
      (snapshotExistsNearTimestamp st.store msg.jd 5 = true →
        processMessage now st msg = { st with skipped := st.skipped + 1 }) ∧
      (snapshotExistsNearTimestamp st.store msg.jd 5 = false →
        backfillNontrivial now msg = true →
        processMessage now st msg =
          { st with store := st.store ++ [msg.jd], saved := st.saved + 1 }) := by
  intro now st msg
  constructor
  · intro h
    unfold processMessage
    simp [h]
  · intro h hn
    unfold processMessage
    unfold backfillNontrivial at hn
    simp only [h, Bool.false_eq_true, if_false]
    cases hp : parsePortfolioResponse msg.text (some msg.iso) now with
    | error e =>
      rw [hp] at hn
      simp at hn
    | ok p =>
      rw [hp] at hn
      have hn2 : nontrivialParse p = true := hn
      simp [hn2]

/-- Witness for the C5 amended claim: with one persisted snapshot at julian
day 0, a candidate 3 minutes later is skipped, and a candidate 10 minutes
later with a parseable positive total balance is persisted. -/
theorem backfill_dedup_characterization_witness :
    processMessage "N" { store := [0], saved := 0, skipped := 0, errorCount := 0 }
        { text := "Total Balance: $90.20", iso := "I", jd := 3 / 1440 } =
      { store := [0], saved := 0, skipped := 1, errorCount := 0 } ∧
    processMessage "N" { store := [0], saved := 0, skipped := 0, errorCount := 0 }
        { text := "Total Balance: $90.20", iso := "I", jd := 10 / 1440 } =
      { store := [0, 10 / 1440], saved := 1, skipped := 0, errorCount := 0 } := by
  constructor
  · exact (backfill_dedup_characterization "N" _ _).1 (by with_unfolding_all decide)
  · exact (backfill_dedup_characterization "N" _ _).2 (by with_unfolding_all decide)
      (by with_unfolding_all decide)

set_option maxRecDepth 16000 in
/-- C6: the sign of extracted numbers is preserved into `total_pnl_usd` and
`total_pnl_pct` (here `-15.19` and `-0.02`), while a negative number
extracted from a balance/invested/value line never reaches those fields: the
concrete negative balance line leaves `total_balance` at its default `0`, and
in general a summary step whose extracted number is negative leaves all four
non-negative fields of the snapshot unchanged. -/
theorem negative_sign_policy :
    parsePortfolioResponse "Total Balance: -5.00\nTotal PNL: -$15.19 (-0.02%)"
        (some "T") "N" =
      Except.ok
        { snapshot :=
            { total_balance := 0, available_balance := 0, invested := 0,
              value := 0, total_pnl_usd := some (-15.19),
              total_pnl_pct := some (-0.02), timestamp := "T",
              total_positions := 0 }
          positions := [] } ∧
    (∀ (line : List Char) (s : PortfolioSnapshot) (b : ℚ),
      extractNumber line = some b → b < 0 →
      (applySummaryLine line s).total_balance = s.total_balance ∧
      (applySummaryLine line s).available_balance = s.available_balance ∧
      (applySummaryLine line s).invested = s.invested ∧
      (applySummaryLine line s).value = s.value) := by
  constructor
  · with_unfolding_all decide
  · intro line s b hb hneg
    have hnot : ¬ (0 ≤ b) := not_le.mpr hneg
    unfold applySummaryLine
    simp only []
    split_ifs <;>
      cases hf : findPnlSummary line <;> simp [hf, hb, hnot]

/-- Witness for the C6 general conjunct: the line `"Total Balance: -5.00"`
extracts `-5`, and applying it to the default snapshot leaves all four
non-negative fields unchanged. -/
theorem negative_sign_policy_witness :
    (applySummaryLine "Total Balance: -5.00".toList {}).total_balance =
      ({} : PortfolioSnapshot).total_balance ∧
    (applySummaryLine "Total Balance: -5.00".toList {}).available_balance =
      ({} : PortfolioSnapshot).available_balance ∧
    (applySummaryLine "Total Balance: -5.00".toList {}).invested =
      ({} : PortfolioSnapshot).invested ∧
    (applySummaryLine "Total Balance: -5.00".toList {}).value =
      ({} : PortfolioSnapshot).value :=
  negative_sign_policy.2 "Total Balance: -5.00".toList {} (-5)
    (by with_unfolding_all decide) (by with_unfolding_all decide)

/-- C7 counterexample: with `lastKnownTraders = ["zed"]` and current traders
`["alpha", "beta", "zed"]`, a save oracle that fails only on alpha's event
(beta's event would succeed, first conjunct) nevertheless yields *no* emitted
events: the `catch` wraps the whole pass, so beta's `copier_added` is never
attempted and `lastKnownTraders` is left unchanged — refuting the per-trader
catch granularity claimed. -/
theorem event_save_failure_aborts_pass :
    (fun e => e.trader_name != some "alpha") (mkAddEvent "TS" "beta") = true ∧
    detectCopyTradingChanges (fun e => e.trader_name != some "alpha")
        (some { timestamp := "TS" }) ["zed"]
        [traderPosition "alpha", traderPosition "beta", traderPosition "zed"] =
      { emitted := [], lastKnown := ["zed"], errorCaught := true } := by
  constructor
  · decide
  · decide

/-- C7 amended: an event-save failure is caught inside
`detectCopyTradingChanges` (the function completes and the persisted snapshot
is untouched), but at whole-pass granularity: exactly the events before the
first failing save are emitted and `lastKnownTraders` is left unchanged; only
when every save succeeds are all planned events emitted and the trader set
replaced. A failure of the snapshot write itself happens before detection and
propagates to the route handler unchanged, with detection never running. -/
theorem detect_failure_characterization :
    (∀ (f : CopyTradingEvent → Bool) (snap : PortfolioSnapshot)
        (lastKnown : List String) (positions : List Position),
      lastKnown ≠ [] →
      detectCopyTradingChanges f (some snap) lastKnown positions =
        (if (plannedEvents snap.timestamp lastKnown (currentTradersOf positions)).all f = true then
          { emitted := plannedEvents snap.timestamp lastKnown (currentTradersOf positions),
            lastKnown := currentTradersOf positions, errorCaught := false }
        else
          { emitted := (plannedEvents snap.timestamp lastKnown
              (currentTradersOf positions)).takeWhile f,
            lastKnown := lastKnown, errorCaught := true })) ∧
    (∀ (e : String) (f : CopyTradingEvent → Bool)
        (latest : Option PortfolioSnapshot) (lastKnown : List String)
        (positions : List Position),
      refreshFlow (Except.error e) f latest lastKnown positions =
        Except.error e) := by
  constructor
  · intro f snap lastKnown positions h
    obtain ⟨a, t, rfl⟩ : ∃ a t, lastKnown = a :: t := by
      cases lastKnown with
      | nil => exact absurd rfl h
      | cons a t => exact ⟨a, t, rfl⟩
    have hP : detectCopyTradingChanges f (some snap) (a :: t) positions =
        (let r := saveEventsLoop f
          (plannedEvents snap.timestamp (a :: t) (currentTradersOf positions))
         if r.2 then
           { emitted := r.1, lastKnown := a :: t, errorCaught := true }
         else
           { emitted := r.1, lastKnown := currentTradersOf positions,
             errorCaught := false }) := rfl
    rw [hP, saveEventsLoop_eq]
    cases hall : (plannedEvents snap.timestamp (a :: t) (currentTradersOf positions)).all f with
    | true => simp [takeWhile_of_all f _ hall]
    | false => simp
  · intro e f latest lastKnown positions
    rfl

/-- Witness for the C7 amended claim: a fully successful pass emits the
planned add/remove events and replaces the trader set, and an erroring
snapshot write propagates unchanged through the refresh flow. -/
theorem detect_failure_characterization_witness :
    detectCopyTradingChanges (fun _ => true) (some { timestamp := "TS" })
        ["zed"] [traderPosition "carol"] =
      { emitted := [mkAddEvent "TS" "carol", mkRemoveEvent "TS" "zed"],
        lastKnown := ["carol"], errorCaught := false } ∧
    refreshFlow (Except.error "boom") (fun _ => true) none [] [] =
      Except.error "boom" := by
  constructor
  · rw [detect_failure_characterization.1 (fun _ => true) { timestamp := "TS" }
        ["zed"] [traderPosition "carol"] (by decide)]
    decide
  · exact detect_failure_characterization.2 "boom" (fun _ => true) none [] []

/-- C8: refuted as stated on the code — the synthetic message
`"Total Balance: $5.00\n#1. Will X happen?\nCopied from: x"` has its
total-balance line before the only numbered position line, yet
`parsePortfolioResponse` raises the `extractTextAfter` `TypeError` instead of
returning a snapshot; the summary pass alone would have extracted `5`
(second conjunct), so the failure is the exception, not the extraction. -/
theorem total_balance_message_raises :
    parsePortfolioResponse "Total Balance: $5.00\n#1. Will X happen?\nCopied from: x"
        (some "T") "N" = Except.error () ∧
    (pass1 (mkLines "Total Balance: $5.00\n#1. Will X happen?\nCopied from: x".toList)
        {}).total_balance = 5 := by
  constructor
  · decide
  · with_unfolding_all decide

/-- C10: once the positions section has been entered, a line satisfying the
control condition (back/refresh/last page/next/auto redeem/sell without
shares/limit, or a bare pagination button) stops pass 2 for the whole message
with the accumulated state returned intact — even when that line matches the
numbered-header pattern. Concretely, `"#2. Will the next election be
contested?"` (which contains `next`) ends parsing: only the first position is
in the output and nothing after the control line contributes. -/
theorem control_line_terminates_positions :
    (∀ (line : List Char) (rest : List (List Char)) (st : Pass2State),
      st.inPositionsSection = true → breakCond line = true →
      pass2 (line :: rest) st = Except.ok st) ∧
    parsePortfolioResponse
        "#1. Will A win?\nEntry: 0.5\n#2. Will the next election be contested?\n#3. Will B win?"
        (some "T") "N" =
      Except.ok
        { snapshot := { timestamp := "T" }
          positions := [{ market_question := "Will A win?", entry_price := 0.5 }] } := by
  constructor
  · intro line rest st h1 h2
    unfold pass2
    simp [h1, h2]
  · with_unfolding_all decide

/-- Witness for the C10 general conjunct: the control check fires on the
genuine market question `"#2. Will the next election be contested?"` when the
section is already open, returning the state unchanged. -/
theorem control_line_terminates_positions_witness :
    pass2 ["#2. Will the next election be contested?".toList]
        { positions := [], current := none, inPositionsSection := true } =
      Except.ok { positions := [], current := none, inPositionsSection := true } :=
  control_line_terminates_positions.1 "#2. Will the next election be contested?".toList
    [] { positions := [], current := none, inPositionsSection := true } rfl (by decide)

end TgDash
